import Mathlib

/-!
Verification development for the iganet session/model protocol engine.

The repository ships the websocket client helpers and the unit tests
(`src/webapps/unittests/wsiganet.py`, `src/webapps/unittests/test_server.py`);
the server engine itself is not part of the Python sources, so the engine is
modelled here from the specification, faithful to its words, and
cross-checked against the concrete values pinned by the unit tests.
Numeric values are modelled as rationals; every value appearing in the tests
(0.0, 0.5, 1.0, 1/3, ...) is exact.
-/

namespace IgaNet

/-- Modelled from the spec: a model kind fixes the parametric dimension
(Curve 1, Surface 2, Volume 3). -/
inductive ModelKind where
  | BSplineCurve
  | BSplineSurface
  | BSplineVolume
deriving DecidableEq, Repr

/-- Modelled from the spec: parametric dimension of a kind. -/
def ModelKind.parDim : ModelKind → ℕ
  | .BSplineCurve => 1
  | .BSplineSurface => 2
  | .BSplineVolume => 3

/-- Modelled from the spec and the tests: number of geometric coefficient
rows; a surface carries x, y and z rows
(`test_get_attributes` observes three rows for a surface). -/
def ModelKind.geoDim (k : ModelKind) : ℕ := k.parDim + 1

/-- Modelled from the spec: the clamped (open) uniform knot vector for one
parametric direction with `n` coefficients and degree `p`: `p+1` zeros,
`n-p-1` equispaced interior knots, `p+1` ones.  For `p = 1`, `n = 3` this is
`[0, 0, 1/2, 1, 1]` and for `p = 1`, `n = 2` it is `[0, 0, 1, 1]`, matching
the `knots` attribute observed in `test_get_attributes`. -/
def makeKnots (p n : ℕ) : List ℚ :=
  List.replicate (p + 1) 0
    ++ (List.range (n - p - 1)).map (fun j : ℕ => ((j + 1 : ℕ) : ℚ) / ((n - p : ℕ) : ℚ))
    ++ List.replicate (p + 1) 1

/-- Modelled from the spec: Greville abscissae of the clamped uniform knot
vector (average of `p` consecutive knots), the classical choice placing the
default control points equispaced on the unit interval. -/
def greville (p n : ℕ) : List ℚ :=
  (List.range n).map (fun i => (((makeKnots p n).drop (i + 1)).take p).sum / (p : ℚ))

/-- Modelled from the spec: the default coefficient rows of a freshly created
model: one row per geometric dimension; row `d` below the parametric
dimension holds the `d`-th Greville coordinate of the tensor grid (first
direction running fastest), rows at or above the parametric dimension are
all ones.  This reproduces the unit-square grid observed in
`test_get_attributes`. -/
def defaultCoeffs (k : ModelKind) (degree : ℕ) (ncoeffs : List ℕ) : List (List ℚ) :=
  (List.range k.geoDim).map (fun d =>
    if d < k.parDim then
      (List.range ncoeffs.prod).map (fun i =>
        (greville degree (ncoeffs.getD d 0)).getD
          ((i / (ncoeffs.take d).prod) % ncoeffs.getD d 0) 0)
    else
      List.replicate ncoeffs.prod 1)

/-- Modelled from the spec: one named component of a model: degree per
parametric direction, knot vector per direction, stored coefficient counts,
and the coefficient array, one row per geometric dimension. -/
structure BSplineComponent where
  degrees : List ℕ
  ncoeffs : List ℕ
  knots : List (List ℚ)
  coeffs : List (List ℚ)
deriving DecidableEq, Repr

/-- Modelled from the spec: derived read-only quantity `nknots`: the length
of the knot vector in each parametric direction. -/
def BSplineComponent.nknots (c : BSplineComponent) : List ℕ :=
  c.knots.map List.length

/-- Modelled from the spec: a model instance: a kind and its single
component, named "geometry" in the tests. -/
structure Model where
  kind : ModelKind
  geometry : BSplineComponent
deriving DecidableEq, Repr

/-- Modelled from the spec: error taxonomy of the protocol engine. -/
inductive Err where
  | InvalidRequest
  | NotFound
  | ValidationError
  | SerializationError
deriving DecidableEq, Repr

/-- Modelled from the spec: every error maps to a nonzero reply status. -/
def Err.status : Err → ℕ
  | .InvalidRequest => 1
  | .NotFound => 2
  | .ValidationError => 3
  | .SerializationError => 4

/-- Modelled from the spec: every error carries a human-readable reason. -/
def Err.reason : Err → String
  | .InvalidRequest => "invalid request"
  | .NotFound => "not found"
  | .ValidationError => "validation error"
  | .SerializationError => "serialization error"

/-- Modelled from the spec: model creation: fails with `ValidationError` if
`degree < 1`, if the coefficient-count list length mismatches the kind's
parametric dimension, or if any count is `<= degree`; otherwise builds the
component with clamped uniform knot vectors and the default unit-cube
coefficient grid. -/
def createModel (k : ModelKind) (degree : ℕ) (ncoeffs : List ℕ) : Except Err Model :=
  if degree < 1 then .error .ValidationError
  else if ncoeffs.length ≠ k.parDim then .error .ValidationError
  else if ncoeffs.any (fun n => n ≤ degree) then .error .ValidationError
  else .ok
    { kind := k
      geometry :=
        { degrees := List.replicate k.parDim degree
          ncoeffs := ncoeffs
          knots := ncoeffs.map (makeKnots degree)
          coeffs := defaultCoeffs k degree ncoeffs } }

/-- Modelled from the spec: the value of a readable attribute — arrays of
naturals for `degrees`/`ncoeffs`/`nknots`, arrays of rational rows for
`coeffs`/`knots`. -/
inductive AttrValue where
  | nats (l : List ℕ)
  | rows (l : List (List ℚ))
deriving DecidableEq, Repr

/-- Modelled from the spec: attribute read on a component; unrecognized
attribute names yield `none` (turned into `NotFound` by the router). -/
def getAttribute (c : BSplineComponent) : String → Option AttrValue
  | "degrees" => some (.nats c.degrees)
  | "ncoeffs" => some (.nats c.ncoeffs)
  | "nknots" => some (.nats c.nknots)
  | "coeffs" => some (.rows c.coeffs)
  | "knots" => some (.rows c.knots)
  | _ => none

/-- Modelled from the spec: payload of a `put coeffs` request: the indices
of the control points to overwrite and the replacement values.  The worked
example of the spec and `test_put_attributes` show the replacement list
holding one entry per index, each entry giving the new value of that
control point in every geometric dimension. -/
structure PutPayload where
  indices : List ℕ
  coeffs : List (List ℚ)
deriving DecidableEq, Repr

/-- Modelled from the spec: overwrite control point `idx` with point `pt`:
row `d` of the coefficient array receives the `d`-th entry of `pt` at
position `idx`. -/
def setPoint : List (List ℚ) → ℕ → List ℚ → List (List ℚ)
  | [], _, _ => []
  | row :: rows, idx, pt => row.set idx (pt.headD 0) :: setPoint rows idx pt.tail

/-- Modelled from the spec: apply a whole put payload, point by point. -/
def applyPut (rows : List (List ℚ)) (indices : List ℕ) (pts : List (List ℚ)) :
    List (List ℚ) :=
  (indices.zip pts).foldl (fun r ip => setPoint r ip.1 ip.2) rows

/-- Modelled from the spec and `test_put_attributes`: `put coeffs` validates
that the number of indices equals the number of replacement points, that
every replacement point has one value per geometric dimension, and that
every index lies in `[0, total control points)`; on success it overwrites
the addressed control points and leaves everything else unchanged. -/
def putCoeffs (k : ModelKind) (c : BSplineComponent) (p : PutPayload) :
    Except Err BSplineComponent :=
  if p.indices.length ≠ p.coeffs.length then .error .ValidationError
  else if p.coeffs.any (fun pt => pt.length ≠ k.geoDim) then .error .ValidationError
  else if p.indices.any (fun i => c.ncoeffs.prod ≤ i) then .error .ValidationError
  else .ok { c with coeffs := applyPut c.coeffs p.indices p.coeffs }

/-- Modelled from the spec: the structured document produced by
`exportxml`: kind, degrees, knot vectors and coefficients in a fixed field
order (the spec requires a stable, deterministic field order). -/
structure ComponentDoc where
  kind : ModelKind
  degrees : List ℕ
  knots : List (List ℚ)
  coeffs : List (List ℚ)
deriving DecidableEq, Repr

/-- Modelled from the spec: structured export of a model. -/
def exportModelXml (m : Model) : ComponentDoc :=
  { kind := m.kind
    degrees := m.geometry.degrees
    knots := m.geometry.knots
    coeffs := m.geometry.coeffs }

/-- Modelled from the spec: the structured document produced by a
component-level `exportxml`: the degrees, knot vectors and coefficients of
one named component, in a fixed field order. -/
structure GeometryDoc where
  degrees : List ℕ
  knots : List (List ℚ)
  coeffs : List (List ℚ)
deriving DecidableEq, Repr

/-- Modelled from the spec: structured export of a single named component
of a model. -/
def exportComponentXml (m : Model) : GeometryDoc :=
  { degrees := m.geometry.degrees
    knots := m.geometry.knots
    coeffs := m.geometry.coeffs }

/-- Modelled from the spec: the coefficient counts a structured import
recomputes from the document's knot vectors and degrees. -/
def derivedNC (doc : ComponentDoc) : List ℕ :=
  (doc.knots.zip doc.degrees).map (fun kp => kp.1.length - kp.2 - 1)

/-- Modelled from the spec: structured import: parses the document,
recomputes the coefficient counts from the knot vectors and degrees, and
fails with `ValidationError` if the structural invariants
(degree/knot/coefficient consistency) do not hold. -/
def importModelXml (doc : ComponentDoc) : Except Err Model :=
  if doc.degrees.length ≠ doc.kind.parDim then .error .ValidationError
  else if doc.knots.length ≠ doc.kind.parDim then .error .ValidationError
  else if (doc.knots.zip doc.degrees).any (fun kp => kp.1.length < kp.2 + 2) then
    .error .ValidationError
  else if doc.coeffs.length ≠ doc.kind.geoDim then .error .ValidationError
  else if doc.coeffs.any (fun row => row.length ≠ (derivedNC doc).prod) then
    .error .ValidationError
  else .ok
    { kind := doc.kind
      geometry := { degrees := doc.degrees, ncoeffs := derivedNC doc, knots := doc.knots,
                    coeffs := doc.coeffs } }

/-- Modelled from the spec: structural well-formedness of a model: array
lengths match the parametric/geometric dimensions, every knot vector has
`ncoeffs + degree + 1` entries, every direction has at least one
coefficient, and every coefficient row has one entry per control point. -/
def WF (m : Model) : Prop :=
  m.geometry.degrees.length = m.kind.parDim ∧
  m.geometry.ncoeffs.length = m.kind.parDim ∧
  m.geometry.knots.length = m.kind.parDim ∧
  (∀ i < m.kind.parDim,
    (m.geometry.knots.getD i []).length
      = m.geometry.ncoeffs.getD i 0 + m.geometry.degrees.getD i 0 + 1) ∧
  (∀ i < m.kind.parDim, 1 ≤ m.geometry.ncoeffs.getD i 0) ∧
  m.geometry.coeffs.length = m.kind.geoDim ∧
  (∀ row ∈ m.geometry.coeffs, row.length = m.geometry.ncoeffs.prod)

instance (m : Model) : Decidable (WF m) := by
  unfold WF; infer_instance

/-- Modelled from the spec: numeric tag of a kind in the binary format. -/
def ModelKind.tag : ModelKind → ℕ
  | .BSplineCurve => 0
  | .BSplineSurface => 1
  | .BSplineVolume => 2

/-- Modelled from the spec: kind recovered from its binary tag. -/
def kindOfTag : ℕ → Option ModelKind
  | 0 => some .BSplineCurve
  | 1 => some .BSplineSurface
  | 2 => some .BSplineVolume
  | _ => none

/-- Modelled from the spec: length-prefixed binary encoding of one rational
sequence. -/
def encListQ (l : List ℚ) : List ℚ := ((l.length : ℚ)) :: l

/-- Modelled from the spec: length-prefixed binary encoding of one natural
sequence. -/
def encListNat (l : List ℕ) : List ℚ := ((l.length : ℚ)) :: l.map (fun n : ℕ => (n : ℚ))

/-- Modelled from the spec: count-prefixed binary encoding of a sequence of
rational sequences. -/
def encRows (l : List (List ℚ)) : List ℚ := ((l.length : ℚ)) :: (l.map encListQ).flatten

/-- Modelled from the spec: the opaque binary form of a model (`save`):
kind tag, then degrees, coefficient counts, knot vectors and coefficient
rows, each length-prefixed. -/
def saveModel (m : Model) : List ℚ :=
  (m.kind.tag : ℚ) :: (encListNat m.geometry.degrees ++ encListNat m.geometry.ncoeffs
    ++ encRows m.geometry.knots ++ encRows m.geometry.coeffs)

/-- Modelled from the spec: read a natural number back from its binary cell. -/
def decCell (q : ℚ) : ℕ := q.num.toNat

/-- Modelled from the spec: binary decoder of one length-prefixed rational
sequence; returns the sequence and the remaining stream. -/
def decListQ : List ℚ → Option (List ℚ × List ℚ)
  | [] => none
  | q :: qs =>
    let n := decCell q
    if n ≤ qs.length then some (qs.take n, qs.drop n) else none

/-- Modelled from the spec: binary decoder of one length-prefixed natural
sequence. -/
def decListNat (qs : List ℚ) : Option (List ℕ × List ℚ) :=
  (decListQ qs).map (fun p => (p.1.map decCell, p.2))

/-- Modelled from the spec: binary decoder of `n` successive
length-prefixed rational sequences. -/
def decRowsAux : ℕ → List ℚ → Option (List (List ℚ) × List ℚ)
  | 0, qs => some ([], qs)
  | n + 1, qs => do
    let (row, rest) ← decListQ qs
    let (rows, rest2) ← decRowsAux n rest
    pure (row :: rows, rest2)

/-- Modelled from the spec: binary decoder of a count-prefixed sequence of
rational sequences. -/
def decRows : List ℚ → Option (List (List ℚ) × List ℚ)
  | [] => none
  | q :: qs => decRowsAux (decCell q) qs

/-- Modelled from the spec: binary decoder of a whole model. -/
def decModel (qs : List ℚ) : Option Model :=
  match qs with
  | [] => none
  | t :: rest => do
    let k ← kindOfTag (decCell t)
    let (degrees, r1) ← decListNat rest
    let (nc, r2) ← decListNat r1
    let (knots, r3) ← decRows r2
    let (coeffs, _) ← decRows r3
    pure { kind := k, geometry := { degrees := degrees, ncoeffs := nc,
                                    knots := knots, coeffs := coeffs } }

/-- Modelled from the spec: binary import (`load`): decodes the stream,
failing with `SerializationError` on malformed input and with
`ValidationError` when the decoded model violates the structural
invariants. -/
def loadModel (qs : List ℚ) : Except Err Model :=
  match decModel qs with
  | none => .error .SerializationError
  | some m => if WF m then .ok m else .error .ValidationError

/-- Modelled from the spec: one session: a model registry (association list
of model ids) plus a counter handing out fresh model ids. -/
structure Session where
  nextModelId : ℕ
  models : List (ℕ × Model)
deriving DecidableEq, Repr

/-- Modelled from the spec: the model registry of a fresh session is empty. -/
def emptySession : Session := { nextModelId := 0, models := [] }

/-- Modelled from the spec: the structured document produced by a
session-level `exportxml`: the documents of the session's models in
registry order, each under its model id — a stable, deterministic
rendering of the whole session. -/
structure SessionDoc where
  models : List (ℕ × ComponentDoc)
deriving DecidableEq, Repr

/-- Modelled from the spec: structured export of a whole session. -/
def exportSessionXml (sess : Session) : SessionDoc :=
  { models := sess.models.map (fun p => (p.1, exportModelXml p.2)) }

/-- Modelled from the spec: the server state: the session registry
(association list of session ids, with a counter handing out fresh ids) and
the connection manager's attendance relation, one pair
`(connection, attended session)` per attending connection. -/
structure Server where
  nextSessionId : ℕ
  sessions : List (ℕ × Session)
  attendance : List (ℕ × ℕ)
deriving DecidableEq, Repr

/-- Modelled from the spec: `list()` of the session registry. -/
def sessionIds (s : Server) : List ℕ := s.sessions.map Prod.fst

/-- Modelled from the spec: `create()` of the session registry allocates a
fresh id (never one still registered) and an empty model registry. -/
def createSession (s : Server) : ℕ × Server :=
  (s.nextSessionId,
   { s with
       sessions := s.sessions ++ [(s.nextSessionId, emptySession)]
       nextSessionId := s.nextSessionId + 1 })

/-- Modelled from the spec: `remove(id)` of the session registry: fails
with `NotFound` if absent; removal also detaches connections still
attending. -/
def removeSession (s : Server) (sid : ℕ) : Except Err Server :=
  if s.sessions.any (fun p => p.1 == sid) then
    .ok { s with
            sessions := s.sessions.filter (fun p => p.1 != sid)
            attendance := s.attendance.filter (fun p => p.2 != sid) }
  else .error .NotFound

/-- Modelled from the spec: session lookup. -/
def findSession (s : Server) (sid : ℕ) : Option Session :=
  (s.sessions.find? (fun p => p.1 == sid)).map Prod.snd

/-- Modelled from the spec: model lookup within a session. -/
def findModel (sess : Session) (mid : ℕ) : Option Model :=
  (sess.models.find? (fun p => p.1 == mid)).map Prod.snd

/-- Modelled from the spec: the connections attending a session. -/
def attendees (s : Server) (sid : ℕ) : List ℕ :=
  (s.attendance.filter (fun p => p.2 == sid)).map Prod.fst

/-- Modelled from the spec: whether a connection attends a session. -/
def attending (s : Server) (conn sid : ℕ) : Bool :=
  (conn, sid) ∈ s.attendance

/-- Modelled from the spec: broadcast fan-out: the notification goes to
every connection attending the session except the issuer of the triggering
request. -/
def broadcastTo (s : Server) (sid issuer : ℕ) (msg : String) : List (ℕ × String) :=
  ((attendees s sid).filter (fun c => c != issuer)).map (fun c => (c, msg))

/-- Modelled from the spec: rewrite one session of the registry in place. -/
def updateSession (s : Server) (sid : ℕ) (f : Session → Session) : Server :=
  { s with sessions := s.sessions.map (fun p => if p.1 == sid then (p.1, f p.2) else p) }

/-- Modelled from the spec: rewrite one model of a session in place. -/
def updateModel (sess : Session) (mid : ℕ) (m : Model) : Session :=
  { sess with models := sess.models.map (fun p => if p.1 == mid then (p.1, m) else p) }

/-- Modelled from the spec: body of a successful reply. -/
inductive ReplyData where
  | ids (l : List ℕ)
  | attr (v : AttrValue)
  | created (id : ℕ)
  | doc (d : ComponentDoc)
  | sdoc (d : SessionDoc)
  | cdoc (d : GeometryDoc)
deriving DecidableEq, Repr

/-- Modelled from the spec: the reply envelope: `status = 0` denotes
success, any other value failure with a human-readable `reason`. -/
structure Reply where
  status : ℕ
  reason : String
  data : Option ReplyData
deriving DecidableEq, Repr

/-- Modelled from the spec: successful reply. -/
def okReply (d : Option ReplyData) : Reply := { status := 0, reason := "", data := d }

/-- Modelled from the spec: error reply with nonzero status and a
descriptive reason. -/
def errReply (e : Err) : Reply := { status := e.status, reason := e.reason, data := none }

/-- Modelled from the spec: the parsed requests the claims exercise, one
tagged variant per recognized path shape. -/
inductive Request where
  | getModels (sid : ℕ)
  | getAttr (sid mid : ℕ) (comp attr : String)
  | createModel (sid : ℕ) (kind : ModelKind) (degree : ℕ) (ncoeffs : List ℕ)
  | putAttr (sid mid : ℕ) (comp attr : String) (payload : PutPayload)
  | connect (sid : ℕ)
  | disconnect (sid : ℕ)
  | exportXml (sid mid : ℕ)
  | exportSessionXml (sid : ℕ)
  | exportComponentXml (sid mid : ℕ) (comp : String)
deriving DecidableEq, Repr

/-- Modelled from the spec: the request router: resolves the addressed
session/model/component/attribute, dispatches, and returns the direct
reply, the new server state, and the broadcast deliveries
`(recipient connection, notification)`.  Every error is turned into a
nonzero-status reply; a failed mutating request never produces a
broadcast. -/
def handle (s : Server) (conn : ℕ) : Request → Reply × Server × List (ℕ × String)
  | .getModels sid =>
    match findSession s sid with
    | none => (errReply .NotFound, s, [])
    | some sess => (okReply (some (.ids (sess.models.map Prod.fst))), s, [])
  | .getAttr sid mid comp attr =>
    match findSession s sid with
    | none => (errReply .NotFound, s, [])
    | some sess =>
      match findModel sess mid with
      | none => (errReply .NotFound, s, [])
      | some m =>
        if comp ≠ "geometry" then (errReply .NotFound, s, [])
        else
          match getAttribute m.geometry attr with
          | none => (errReply .NotFound, s, [])
          | some v => (okReply (some (.attr v)), s, [])
  | .createModel sid kind degree nc =>
    match findSession s sid with
    | none => (errReply .NotFound, s, [])
    | some sess =>
      match createModel kind degree nc with
      | .error e => (errReply e, s, [])
      | .ok m =>
        (okReply (some (.created sess.nextModelId)),
         updateSession s sid (fun t =>
           { nextModelId := t.nextModelId + 1, models := t.models ++ [(t.nextModelId, m)] }),
         broadcastTo s sid conn "create")
  | .putAttr sid mid comp attr payload =>
    match findSession s sid with
    | none => (errReply .NotFound, s, [])
    | some sess =>
      match findModel sess mid with
      | none => (errReply .NotFound, s, [])
      | some m =>
        if comp ≠ "geometry" then (errReply .NotFound, s, [])
        else if attr ≠ "coeffs" then (errReply .InvalidRequest, s, [])
        else
          match putCoeffs m.kind m.geometry payload with
          | .error e => (errReply e, s, [])
          | .ok c2 =>
            (okReply none,
             updateSession s sid (fun t => updateModel t mid { m with geometry := c2 }),
             broadcastTo s sid conn "put")
  | .connect sid =>
    match findSession s sid with
    | none => (errReply .NotFound, s, [])
    | some _ =>
      if attending s conn sid then (okReply none, s, [])
      else
        (okReply none,
         { s with attendance := s.attendance.filter (fun p => p.1 != conn) ++ [(conn, sid)] },
         [])
  | .disconnect sid =>
    match findSession s sid with
    | none => (errReply .NotFound, s, [])
    | some _ =>
      if attending s conn sid then
        (okReply none,
         { s with attendance := s.attendance.filter (fun p => p != (conn, sid)) }, [])
      else (okReply none, s, [])
  | .exportXml sid mid =>
    match findSession s sid with
    | none => (errReply .NotFound, s, [])
    | some sess =>
      match findModel sess mid with
      | none => (errReply .NotFound, s, [])
      | some m => (okReply (some (.doc (exportModelXml m))), s, [])
  | .exportSessionXml sid =>
    match findSession s sid with
    | none => (errReply .NotFound, s, [])
    | some sess => (okReply (some (.sdoc (exportSessionXml sess))), s, [])
  | .exportComponentXml sid mid comp =>
    match findSession s sid with
    | none => (errReply .NotFound, s, [])
    | some sess =>
      match findModel sess mid with
      | none => (errReply .NotFound, s, [])
      | some m =>
        if comp ≠ "geometry" then (errReply .NotFound, s, [])
        else (okReply (some (.cdoc (exportComponentXml m))), s, [])

/-- Modelled from the spec: the states a model passes through in its life:
created with validated parameters, then rewritten by successful `put
coeffs` requests, successful structured imports, and successful binary
loads. -/
inductive Reachable : Model → Prop where
  | created {k : ModelKind} {deg : ℕ} {nc : List ℕ} {m : Model}
      (h : createModel k deg nc = .ok m) : Reachable m
  | putOk {m : Model} {payload : PutPayload} {c2 : BSplineComponent}
      (hm : Reachable m) (h : putCoeffs m.kind m.geometry payload = .ok c2) :
      Reachable { m with geometry := c2 }
  | importedXml {doc : ComponentDoc} {m2 : Model}
      (h : importModelXml doc = .ok m2) : Reachable m2
  | loaded {qs : List ℚ} {m2 : Model}
      (h : loadModel qs = .ok m2) : Reachable m2

/-- The degree-1, 3×2-coefficient surface of the unit tests, written out as
the model that `createModel BSplineSurface 1 [3, 2]` produces. -/
def surf32 : Model :=
  { kind := .BSplineSurface
    geometry :=
      { degrees := [1, 1]
        ncoeffs := [3, 2]
        knots := [[0, 0, 1/2, 1, 1], [0, 0, 1, 1]]
        coeffs := [[0, 1/2, 1, 0, 1/2, 1], [0, 0, 0, 1, 1, 1], [1, 1, 1, 1, 1, 1]] } }

/-- A server holding one session (id 1) with one model (id 0, `surf32`). -/
def srv32 : Server :=
  { nextSessionId := 2
    sessions := [(1, { nextModelId := 1, models := [(0, surf32)] })]
    attendance := [] }

/-- The structured document of a freshly created default surface
(degree 1, 4×4 coefficients, the defaults of `create_BSplineSurface`). -/
def goldenSurfaceDoc : ComponentDoc :=
  { kind := .BSplineSurface
    degrees := [1, 1]
    knots := [[0, 0, 1/3, 2/3, 1, 1], [0, 0, 1/3, 2/3, 1, 1]]
    coeffs :=
      [[0, 1/3, 2/3, 1, 0, 1/3, 2/3, 1, 0, 1/3, 2/3, 1, 0, 1/3, 2/3, 1],
       [0, 0, 0, 0, 1/3, 1/3, 1/3, 1/3, 2/3, 2/3, 2/3, 2/3, 1, 1, 1, 1],
       [1, 1, 1, 1, 1, 1, 1, 1, 1, 1, 1, 1, 1, 1, 1, 1]] }

/-- The structured document of a freshly created default curve (degree 1,
4 coefficients, the defaults of `create_BSplineCurve`). -/
def goldenCurveDoc : ComponentDoc :=
  { kind := .BSplineCurve
    degrees := [1]
    knots := [[0, 0, 1/3, 2/3, 1, 1]]
    coeffs := [[0, 1/3, 2/3, 1], [1, 1, 1, 1]] }

/-- The component-level structured document of a freshly created default
surface's "geometry" component. -/
def goldenComponentDoc : GeometryDoc :=
  { degrees := [1, 1]
    knots := [[0, 0, 1/3, 2/3, 1, 1], [0, 0, 1/3, 2/3, 1, 1]]
    coeffs :=
      [[0, 1/3, 2/3, 1, 0, 1/3, 2/3, 1, 0, 1/3, 2/3, 1, 0, 1/3, 2/3, 1],
       [0, 0, 0, 0, 1/3, 1/3, 1/3, 1/3, 2/3, 2/3, 2/3, 2/3, 1, 1, 1, 1],
       [1, 1, 1, 1, 1, 1, 1, 1, 1, 1, 1, 1, 1, 1, 1, 1]] }

/-- The session-level structured document of a fresh session into which a
default surface (model id 0) and then a default curve (model id 1) were
created, in that order. -/
def goldenSessionDoc : SessionDoc :=
  { models := [(0, goldenSurfaceDoc), (1, goldenCurveDoc)] }

deriving instance DecidableEq for Except

/-- A server holding one registered session (id 0) and no attendance. -/
def srvNoAtt : Server := { nextSessionId := 1, sessions := [(0, emptySession)], attendance := [] }

/-- A server holding one registered session (id 0) attended by connection 4. -/
def srvAtt : Server :=
  { nextSessionId := 1, sessions := [(0, emptySession)], attendance := [(4, 0)] }

/-- A server with session 5 attended by connection 10, while connection 11
attends a different session. -/
def srvTwoConn : Server :=
  { nextSessionId := 9, sessions := [(5, emptySession), (7, emptySession)]
    attendance := [(10, 5), (11, 7)] }

section

attribute [local semireducible] Rat.add Rat.sub Rat.mul Rat.inv

/-- C10: a freshly created BSplineSurface with degree 1 and coefficient
counts [3, 2] is initialized to the uniform unit-square grid — `coeffs`
reads `[[0, 1/2, 1, 0, 1/2, 1], [0, 0, 0, 1, 1, 1], [1, 1, 1, 1, 1, 1]]`
and `knots` reads the clamped uniform vectors
`[[0, 0, 1/2, 1, 1], [0, 0, 1, 1]]`. -/
theorem c10_default_surface :
    createModel ModelKind.BSplineSurface 1 [3, 2] = .ok surf32 ∧
    getAttribute surf32.geometry "coeffs"
      = some (.rows [[0, 1/2, 1, 0, 1/2, 1], [0, 0, 0, 1, 1, 1], [1, 1, 1, 1, 1, 1]]) ∧
    getAttribute surf32.geometry "knots"
      = some (.rows [[0, 0, 1/2, 1, 1], [0, 0, 1, 1]]) := by
  refine ⟨?_, ?_, ?_⟩ <;> decide

/-- C1: on the degree-1, 3×2 surface whose coefficient array reads
`[[0, 1/2, 1, 0, 1/2, 1], [0, 0, 0, 1, 1, 1], [1, 1, 1, 1, 1, 1]]`, a put
of `coeffs` with `indices = [0, 3]` and
`coeffs = [[0, 0, 0], [1/2, 1, 1/2]]` succeeds (status 0) and a subsequent
get of `coeffs` returns exactly
`[[0, 1/2, 1, 1/2, 1/2, 1], [0, 0, 0, 1, 1, 1], [0, 1, 1, 1/2, 1, 1]]`,
the third row changing as well. -/
theorem c1_partial_update :
    createModel ModelKind.BSplineSurface 1 [3, 2] = .ok surf32 ∧
    getAttribute surf32.geometry "coeffs"
      = some (.rows [[0, 1/2, 1, 0, 1/2, 1], [0, 0, 0, 1, 1, 1], [1, 1, 1, 1, 1, 1]]) ∧
    (handle srv32 0 (.putAttr 1 0 "geometry" "coeffs"
        { indices := [0, 3], coeffs := [[0, 0, 0], [1/2, 1, 1/2]] })).1.status = 0 ∧
    (handle (handle srv32 0 (.putAttr 1 0 "geometry" "coeffs"
        { indices := [0, 3], coeffs := [[0, 0, 0], [1/2, 1, 1/2]] })).2.1
      0 (.getAttr 1 0 "geometry" "coeffs")).1
      = okReply (some (.attr (.rows
          [[0, 1/2, 1, 1/2, 1/2, 1], [0, 0, 0, 1, 1, 1], [0, 1, 1, 1/2, 1, 1]]))) := by
  refine ⟨?_, ?_, ?_, ?_⟩ <;> decide

/-- C2 counterexample: a `put coeffs` whose `indices` has length 2 while
every replacement row has length 3 (the per-geometric-dimension replacement
length of the claim) does not fail with `ValidationError` — it succeeds,
because the payload rows are per control point, not per geometric
dimension. -/
theorem c2_counterexample :
    (∀ row ∈ [[(0 : ℚ), 0, 0], [1/2, 1, 1/2]], row.length = 3) ∧
    ([0, 3] : List ℕ).length = 2 ∧
    (putCoeffs surf32.kind surf32.geometry
        { indices := [0, 3], coeffs := [[0, 0, 0], [1/2, 1, 1/2]] }).isOk = true := by
  refine ⟨?_, ?_, ?_⟩ <;> decide

/-- C2 (amended): a `put coeffs` fails with `ValidationError` whenever the
number of indices differs from the number of replacement points, i.e. from
the outer length of the `coeffs` payload. -/
theorem c2_amended_rule (k : ModelKind) (c : BSplineComponent) (p : PutPayload)
    (h : p.indices.length ≠ p.coeffs.length) :
    putCoeffs k c p = .error .ValidationError := by
  unfold putCoeffs
  rw [if_pos h]

/-- Witness for the amended C2 at a concrete mismatched payload. -/
theorem c2_amended_witness :
    ([0, 1] : List ℕ).length ≠ ([[(0 : ℚ), 0, 0]]).length ∧
    putCoeffs ModelKind.BSplineSurface surf32.geometry
        { indices := [0, 1], coeffs := [[0, 0, 0]] }
      = .error .ValidationError :=
  ⟨by decide,
   c2_amended_rule ModelKind.BSplineSurface surf32.geometry
     { indices := [0, 1], coeffs := [[0, 0, 0]] } (by decide)⟩

/-- C5: from any registry state whose registered ids are below the
fresh-id counter, creating a session adds an id that was absent before
(so the listing changes), and removing that session restores the listing
to exactly its pre-creation value. -/
theorem c5_session_create_remove (s : Server)
    (h : ∀ id ∈ sessionIds s, id < s.nextSessionId) :
    (createSession s).1 ∉ sessionIds s ∧
    (createSession s).1 ∈ sessionIds (createSession s).2 ∧
    sessionIds (createSession s).2 ≠ sessionIds s ∧
    ∃ s2, removeSession (createSession s).2 (createSession s).1 = .ok s2 ∧
      sessionIds s2 = sessionIds s := by
  have hfresh : s.nextSessionId ∉ sessionIds s := fun hmem => lt_irrefl _ (h _ hmem)
  have hkeep : s.sessions.filter (fun p => p.1 != s.nextSessionId) = s.sessions := by
    apply List.filter_eq_self.mpr
    intro p hp
    have hlt : p.1 < s.nextSessionId := h p.1 (List.mem_map_of_mem Prod.fst hp)
    simpa [bne_iff_ne] using Nat.ne_of_lt hlt
  have hany : ((createSession s).2.sessions.any
      (fun p => p.1 == (createSession s).1)) = true := by
    simp [createSession]
  refine ⟨hfresh, ?_, ?_, ?_⟩
  · simp [createSession, sessionIds]
  · intro he
    have hlen := congrArg List.length he
    simp [createSession, sessionIds] at hlen
  · refine ⟨_, by unfold removeSession; rw [if_pos hany], ?_⟩
    simp only [createSession, sessionIds, List.filter_append]
    rw [hkeep]
    simp

/-- Witness for C5 at a concrete one-session registry. -/
theorem c5_witness :
    (∀ id ∈ sessionIds srvNoAtt, id < srvNoAtt.nextSessionId) ∧
    ((createSession srvNoAtt).1 ∉ sessionIds srvNoAtt ∧
     (createSession srvNoAtt).1 ∈ sessionIds (createSession srvNoAtt).2 ∧
     sessionIds (createSession srvNoAtt).2 ≠ sessionIds srvNoAtt ∧
     ∃ s2, removeSession (createSession srvNoAtt).2 (createSession srvNoAtt).1 = .ok s2 ∧
       sessionIds s2 = sessionIds srvNoAtt) :=
  ⟨by decide, c5_session_create_remove srvNoAtt (by decide)⟩

/-- C7: on an existing session, `disconnect` by a connection not attending
it is a successful no-op, and `connect` by a connection already attending
it is a successful no-op. -/
theorem c7_connect_disconnect_idempotent (s t : Server) (a b S T : ℕ)
    (hS : (findSession s S).isSome = true) (ha : attending s a S = false)
    (hT : (findSession t T).isSome = true) (hb : attending t b T = true) :
    handle s a (.disconnect S) = (okReply none, s, []) ∧
    handle t b (.connect T) = (okReply none, t, []) := by
  obtain ⟨sess, hsess⟩ := Option.isSome_iff_exists.mp hS
  obtain ⟨sess2, hsess2⟩ := Option.isSome_iff_exists.mp hT
  constructor
  · simp [handle, hsess, ha]
  · simp [handle, hsess2, hb]

/-- Witness for C7: connection 3 never attended `srvNoAtt`'s session 0;
connection 4 already attends `srvAtt`'s session 0. -/
theorem c7_witness :
    ((findSession srvNoAtt 0).isSome = true ∧ attending srvNoAtt 3 0 = false ∧
     (findSession srvAtt 0).isSome = true ∧ attending srvAtt 4 0 = true) ∧
    handle srvNoAtt 3 (.disconnect 0) = (okReply none, srvNoAtt, []) ∧
    handle srvAtt 4 (.connect 0) = (okReply none, srvAtt, []) :=
  ⟨by decide,
   c7_connect_disconnect_idempotent srvNoAtt srvAtt 3 4 0 0
     (by decide) (by decide) (by decide) (by decide)⟩

/-- The `exportxml` arm of the router: the reply depends only on the
addressed state, the state is returned unchanged, and no broadcast is
produced. -/
theorem handle_exportXml (s : Server) (c sid mid : ℕ) :
    handle s c (.exportXml sid mid)
      = ((match findSession s sid with
          | none => errReply .NotFound
          | some sess =>
            match findModel sess mid with
            | none => errReply .NotFound
            | some m => okReply (some (.doc (exportModelXml m)))), s, []) := by
  cases hfs : findSession s sid with
  | none => simp [handle, hfs]
  | some sess =>
    cases hfm : findModel sess mid with
    | none => simp [handle, hfs, hfm]
    | some m => simp [handle, hfs, hfm]

/-- The session-level `exportxml` arm of the router: the reply depends only
on the addressed state, the state is returned unchanged, and no broadcast
is produced. -/
theorem handle_exportSessionXml (s : Server) (c sid : ℕ) :
    handle s c (.exportSessionXml sid)
      = ((match findSession s sid with
          | none => errReply .NotFound
          | some sess => okReply (some (.sdoc (exportSessionXml sess)))), s, []) := by
  cases hfs : findSession s sid with
  | none => simp [handle, hfs]
  | some sess => simp [handle, hfs]

/-- The component-level `exportxml` arm of the router: the reply depends
only on the addressed state, the state is returned unchanged, and no
broadcast is produced. -/
theorem handle_exportComponentXml (s : Server) (c sid mid : ℕ) (comp : String) :
    handle s c (.exportComponentXml sid mid comp)
      = ((match findSession s sid with
          | none => errReply .NotFound
          | some sess =>
            match findModel sess mid with
            | none => errReply .NotFound
            | some m =>
              if comp ≠ "geometry" then errReply .NotFound
              else okReply (some (.cdoc (exportComponentXml m)))), s, []) := by
  cases hfs : findSession s sid with
  | none => simp [handle, hfs]
  | some sess =>
    cases hfm : findModel sess mid with
    | none => simp [handle, hfs, hfm]
    | some m =>
      simp only [handle, hfs, hfm]
      split_ifs <;> rfl

/-- C9: structured export is deterministic and effect-free at every target
level — session, model, and named component: exporting leaves the server
state unchanged and produces no broadcast, a second export (even from
another connection) returns the same document, and the exports of a
freshly created default surface/curve session equal the fixed golden
documents (`goldenSurfaceDoc` for the model, `goldenSessionDoc` for the
session with its models in creation order, `goldenComponentDoc` for the
"geometry" component). -/
theorem c9_export_deterministic (s : Server) (a b sid mid : ℕ) (comp : String) :
    ((handle s a (.exportSessionXml sid)).2.1 = s ∧
     (handle s a (.exportSessionXml sid)).2.2 = [] ∧
     (handle (handle s a (.exportSessionXml sid)).2.1 b (.exportSessionXml sid)).1
       = (handle s a (.exportSessionXml sid)).1) ∧
    ((handle s a (.exportXml sid mid)).2.1 = s ∧
     (handle s a (.exportXml sid mid)).2.2 = [] ∧
     (handle (handle s a (.exportXml sid mid)).2.1 b (.exportXml sid mid)).1
       = (handle s a (.exportXml sid mid)).1) ∧
    ((handle s a (.exportComponentXml sid mid comp)).2.1 = s ∧
     (handle s a (.exportComponentXml sid mid comp)).2.2 = [] ∧
     (handle (handle s a (.exportComponentXml sid mid comp)).2.1 b
        (.exportComponentXml sid mid comp)).1
       = (handle s a (.exportComponentXml sid mid comp)).1) ∧
    ((createModel ModelKind.BSplineSurface 1 [4, 4]).map exportModelXml
       = .ok goldenSurfaceDoc ∧
     (createModel ModelKind.BSplineCurve 1 [4]).map exportModelXml
       = .ok goldenCurveDoc ∧
     (handle (handle (handle srvNoAtt 2 (.createModel 0 .BSplineSurface 1 [4, 4])).2.1 2
         (.createModel 0 .BSplineCurve 1 [4])).2.1 7 (.exportSessionXml 0)).1
       = okReply (some (.sdoc goldenSessionDoc)) ∧
     (handle (handle (handle srvNoAtt 2 (.createModel 0 .BSplineSurface 1 [4, 4])).2.1 2
         (.createModel 0 .BSplineCurve 1 [4])).2.1 7 (.exportComponentXml 0 0 "geometry")).1
       = okReply (some (.cdoc goldenComponentDoc))) := by
  refine ⟨?_, ?_, ?_, ?_⟩
  · rw [handle_exportSessionXml s a sid]
    refine ⟨rfl, rfl, ?_⟩
    rw [handle_exportSessionXml s b sid]
  · rw [handle_exportXml s a sid mid]
    refine ⟨rfl, rfl, ?_⟩
    rw [handle_exportXml s b sid mid]
  · rw [handle_exportComponentXml s a sid mid comp]
    refine ⟨rfl, rfl, ?_⟩
    rw [handle_exportComponentXml s b sid mid comp]
  · refine ⟨by decide, by decide, by decide, by decide⟩

/-- The clamped uniform knot vector for `n > p` coefficients of degree `p`
has `n + p + 1` knots. -/
theorem length_makeKnots (p n : ℕ) (h : p < n) :
    (makeKnots p n).length = n + p + 1 := by
  unfold makeKnots
  rw [List.length_append, List.length_append, List.length_map, List.length_range,
    List.length_replicate, List.length_replicate]
  omega

/-- The default coefficient array has one row per geometric dimension. -/
theorem length_defaultCoeffs (k : ModelKind) (deg : ℕ) (nc : List ℕ) :
    (defaultCoeffs k deg nc).length = k.geoDim := by
  simp [defaultCoeffs]

/-- Every row of the default coefficient array has one entry per control
point. -/
theorem mem_defaultCoeffs_length (k : ModelKind) (deg : ℕ) (nc : List ℕ) :
    ∀ row ∈ defaultCoeffs k deg nc, row.length = nc.prod := by
  intro row hrow
  simp only [defaultCoeffs, List.mem_map, List.mem_range] at hrow
  obtain ⟨d, _, rfl⟩ := hrow
  by_cases hdp : d < k.parDim
  · simp [hdp]
  · simp [hdp]

/-- Model creation establishes the structural invariants. -/
theorem wf_createModel {k : ModelKind} {deg : ℕ} {nc : List ℕ} {m : Model}
    (h : createModel k deg nc = .ok m) : WF m := by
  unfold createModel at h
  split_ifs at h with h1 h2 h3
  cases h
  rw [not_lt] at h1
  rw [not_ne_iff] at h2
  simp only [List.any_eq_true, decide_eq_true_eq, not_exists, not_and, not_le] at h3
  refine ⟨by simp, h2, by simp [h2], ?_, ?_, length_defaultCoeffs k deg nc,
    mem_defaultCoeffs_length k deg nc⟩
  · intro i hi
    have hlen : i < nc.length := h2 ▸ hi
    rw [List.getD_eq_getElem _ _ (by simpa using hlen), List.getElem_map,
      List.getD_eq_getElem _ _ hlen,
      List.getD_eq_getElem _ _ (by simpa using hi), List.getElem_replicate]
    exact length_makeKnots deg nc[i] (h3 nc[i] (List.getElem_mem hlen))
  · intro i hi
    have hlen : i < nc.length := h2 ▸ hi
    rw [List.getD_eq_getElem _ _ hlen]
    have hgt := h3 nc[i] (List.getElem_mem hlen)
    omega

/-- Overwriting one control point preserves the length of every
coefficient row. -/
theorem map_length_setPoint (rows : List (List ℚ)) (idx : ℕ) (pt : List ℚ) :
    (setPoint rows idx pt).map List.length = rows.map List.length := by
  induction rows generalizing pt with
  | nil => rfl
  | cons r rs ih => simp [setPoint, List.length_set, ih]

/-- Applying a whole put payload preserves the length of every coefficient
row. -/
theorem map_length_applyPut (rows : List (List ℚ)) (indices : List ℕ)
    (pts : List (List ℚ)) :
    (applyPut rows indices pts).map List.length = rows.map List.length := by
  unfold applyPut
  induction indices.zip pts generalizing rows with
  | nil => rfl
  | cons ip ips ih => rw [List.foldl_cons, ih, map_length_setPoint]

/-- A successful `put coeffs` preserves the structural invariants. -/
theorem wf_putCoeffs {m : Model} {p : PutPayload} {c2 : BSplineComponent}
    (hwf : WF m) (h : putCoeffs m.kind m.geometry p = .ok c2) :
    WF { m with geometry := c2 } := by
  unfold putCoeffs at h
  split_ifs at h with h1 h2 h3
  cases h
  obtain ⟨w1, w2, w3, w4, w5, w6, w7⟩ := hwf
  have hml := map_length_applyPut m.geometry.coeffs p.indices p.coeffs
  refine ⟨w1, w2, w3, w4, w5, ?_, ?_⟩
  · have hl := congrArg List.length hml
    simp only [List.length_map] at hl
    exact hl.trans w6
  · intro row hrow
    have hmem : row.length ∈ (applyPut m.geometry.coeffs p.indices p.coeffs).map
        List.length := List.mem_map_of_mem List.length hrow
    rw [hml] at hmem
    obtain ⟨r, hr, hlen⟩ := List.mem_map.mp hmem
    rw [← hlen]
    exact w7 r hr

/-- A successful structured import establishes the structural invariants. -/
theorem wf_importModelXml {doc : ComponentDoc} {m2 : Model}
    (h : importModelXml doc = .ok m2) : WF m2 := by
  unfold importModelXml at h
  split_ifs at h with h1 h2 h3 h4 h5
  cases h
  rw [not_ne_iff] at h1 h2 h4
  simp only [List.any_eq_true, decide_eq_true_eq, not_exists, not_and, not_lt] at h3
  simp only [List.any_eq_true, decide_eq_true_eq, not_exists, not_and, not_ne_iff] at h5
  have hzlen : (doc.knots.zip doc.degrees).length = doc.kind.parDim := by
    rw [List.length_zip, h1, h2]
    exact Nat.min_self _
  refine ⟨h1, by simpa [derivedNC] using hzlen, h2, ?_, ?_, h4, h5⟩
  · intro i hi
    have hiz : i < (doc.knots.zip doc.degrees).length := hzlen ▸ hi
    have hik : i < doc.knots.length := h2 ▸ hi
    have hid : i < doc.degrees.length := h1 ▸ hi
    unfold derivedNC
    rw [List.getD_eq_getElem _ _ hik,
      List.getD_eq_getElem _ _ (by simpa using hiz),
      List.getD_eq_getElem _ _ hid, List.getElem_map, List.getElem_zip]
    have hge := h3 (doc.knots.zip doc.degrees)[i] (List.getElem_mem hiz)
    rw [List.getElem_zip] at hge
    simp only at hge ⊢
    omega
  · intro i hi
    have hiz : i < (doc.knots.zip doc.degrees).length := hzlen ▸ hi
    unfold derivedNC
    rw [List.getD_eq_getElem _ _ (by simpa using hiz), List.getElem_map,
      List.getElem_zip]
    have hge := h3 (doc.knots.zip doc.degrees)[i] (List.getElem_mem hiz)
    rw [List.getElem_zip] at hge
    simp only at hge ⊢
    omega

/-- A successful binary load establishes the structural invariants. -/
theorem wf_loadModel {qs : List ℚ} {m2 : Model} (h : loadModel qs = .ok m2) :
    WF m2 := by
  unfold loadModel at h
  split at h
  · cases h
  · split_ifs at h with hwf
    cases h
    exact hwf

/-- Every state in a model's life satisfies the structural invariants. -/
theorem wf_reachable {m : Model} (h : Reachable m) : WF m := by
  induction h with
  | created h => exact wf_createModel h
  | putOk hm h ih => exact wf_putCoeffs ih h
  | importedXml h => exact wf_importModelXml h
  | loaded h => exact wf_loadModel h

/-- C3: at every point in a model's life, the `nknots` attribute at every
parametric direction `i` equals `ncoeffs` at `i` plus `degrees` at `i`
plus one. -/
theorem c3_nknots_invariant (m : Model) (h : Reachable m) (i : ℕ)
    (hi : i < m.kind.parDim) :
    ∃ nk nc dg,
      getAttribute m.geometry "nknots" = some (.nats nk) ∧
      getAttribute m.geometry "ncoeffs" = some (.nats nc) ∧
      getAttribute m.geometry "degrees" = some (.nats dg) ∧
      nk.getD i 0 = nc.getD i 0 + dg.getD i 0 + 1 := by
  obtain ⟨w1, w2, w3, w4, w5, w6, w7⟩ := wf_reachable h
  refine ⟨_, _, _, rfl, rfl, rfl, ?_⟩
  have hik : i < m.geometry.knots.length := w3 ▸ hi
  show (m.geometry.knots.map List.length).getD i 0 = _
  rw [List.getD_eq_getElem _ _ (by simpa using hik), List.getElem_map]
  have hd := w4 i hi
  rw [List.getD_eq_getElem _ _ hik] at hd
  exact hd

/-- The coefficient counts recomputed by import from an exported document
agree with the stored counts of a well-formed model. -/
theorem derived_nc_export (m : Model) (h : WF m) :
    derivedNC (exportModelXml m) = m.geometry.ncoeffs := by
  obtain ⟨w1, w2, w3, w4, w5, w6, w7⟩ := h
  apply List.ext_getElem
  · simp [derivedNC, exportModelXml, List.length_zip, w1, w3, w2]
  · intro i h1i h2i
    simp only [derivedNC, exportModelXml] at h1i ⊢
    rw [List.getElem_map, List.getElem_zip]
    have hip : i < m.kind.parDim := by
      rw [List.length_map, List.length_zip, w1, w3, Nat.min_self] at h1i
      exact h1i
    have hik : i < m.geometry.knots.length := w3 ▸ hip
    have hid : i < m.geometry.degrees.length := w1 ▸ hip
    have hv4 := w4 i hip
    have hv5 := w5 i hip
    rw [List.getD_eq_getElem _ _ hik, List.getD_eq_getElem _ _ h2i,
      List.getD_eq_getElem _ _ hid] at hv4
    rw [List.getD_eq_getElem _ _ h2i] at hv5
    simp only
    omega

/-- Structured round trip: importing the export of a well-formed model
returns the model unchanged. -/
theorem import_export (m : Model) (h : WF m) :
    importModelXml (exportModelXml m) = .ok m := by
  have hnc := derived_nc_export m h
  obtain ⟨w1, w2, w3, w4, w5, w6, w7⟩ := h
  have hc1 : ¬ ((exportModelXml m).degrees.length ≠ (exportModelXml m).kind.parDim) := by
    simp [exportModelXml, w1]
  have hc2 : ¬ ((exportModelXml m).knots.length ≠ (exportModelXml m).kind.parDim) := by
    simp [exportModelXml, w3]
  have hc3 : ¬ (((exportModelXml m).knots.zip (exportModelXml m).degrees).any
      (fun kp => kp.1.length < kp.2 + 2) = true) := by
    simp only [exportModelXml, List.any_eq_true, decide_eq_true_eq, not_exists,
      not_and, not_lt]
    intro kp hkp
    obtain ⟨i, hi, heq⟩ := List.mem_iff_getElem.mp hkp
    subst heq
    have hip : i < m.kind.parDim := by
      rw [List.length_zip, w1, w3, Nat.min_self] at hi
      exact hi
    have hik : i < m.geometry.knots.length := w3 ▸ hip
    have hid : i < m.geometry.degrees.length := w1 ▸ hip
    have hv4 := w4 i hip
    have hv5 := w5 i hip
    rw [List.getD_eq_getElem _ _ hik, List.getD_eq_getElem _ _ (w2 ▸ hip),
      List.getD_eq_getElem _ _ hid] at hv4
    rw [List.getD_eq_getElem _ _ (w2 ▸ hip)] at hv5
    rw [List.getElem_zip]
    simp only
    omega
  have hc4 : ¬ ((exportModelXml m).coeffs.length ≠ (exportModelXml m).kind.geoDim) := by
    simp [exportModelXml, w6]
  have hc5 : ¬ ((exportModelXml m).coeffs.any
      (fun row => row.length ≠ (derivedNC (exportModelXml m)).prod) = true) := by
    rw [hnc]
    simp only [exportModelXml, List.any_eq_true, decide_eq_true_eq, not_exists,
      not_and, not_ne_iff]
    exact w7
  unfold importModelXml
  rw [if_neg hc1, if_neg hc2, if_neg hc3, if_neg hc4, if_neg hc5, hnc]
  rfl

/-- Reading back a natural number written into a binary cell. -/
theorem decCell_natCast (n : ℕ) : decCell ((n : ℚ)) = n := by
  unfold decCell
  rw [Rat.num_natCast]
  exact Int.toNat_natCast n

/-- Decoding a length-prefixed rational sequence recovers it and the rest
of the stream. -/
theorem decListQ_enc (l rest : List ℚ) :
    decListQ (encListQ l ++ rest) = some (l, rest) := by
  unfold encListQ decListQ
  simp only [List.cons_append]
  rw [decCell_natCast, if_pos (by simp), List.take_left, List.drop_left]

/-- The natural-sequence encoding is the rational-sequence encoding of the
cast sequence. -/
theorem encListNat_eq (l : List ℕ) :
    encListNat l = encListQ (l.map (fun n : ℕ => (n : ℚ))) := by
  unfold encListNat encListQ
  rw [List.length_map]

/-- Decoding a length-prefixed natural sequence recovers it. -/
theorem decListNat_enc (l : List ℕ) (rest : List ℚ) :
    decListNat (encListNat l ++ rest) = some (l, rest) := by
  unfold decListNat
  rw [encListNat_eq, decListQ_enc]
  simp [List.map_map, Function.comp_def, decCell_natCast]

/-- Decoding `n` successive length-prefixed sequences recovers them. -/
theorem decRowsAux_enc (rows : List (List ℚ)) (rest : List ℚ) :
    decRowsAux rows.length ((rows.map encListQ).flatten ++ rest) = some (rows, rest) := by
  induction rows generalizing rest with
  | nil => rfl
  | cons r rs ih =>
    simp only [List.map_cons, List.flatten_cons, List.length_cons, List.append_assoc,
      decRowsAux]
    rw [decListQ_enc r ((rs.map encListQ).flatten ++ rest)]
    simp only [Option.bind_eq_bind, Option.some_bind]
    rw [ih rest]
    rfl

/-- Decoding a count-prefixed sequence of sequences recovers it. -/
theorem decRows_enc (rows : List (List ℚ)) (rest : List ℚ) :
    decRows (encRows rows ++ rest) = some (rows, rest) := by
  unfold encRows decRows
  simp only [List.cons_append]
  rw [decCell_natCast]
  exact decRowsAux_enc rows rest

/-- The binary tag decodes back to its kind. -/
theorem kindOfTag_tag (k : ModelKind) : kindOfTag k.tag = some k := by
  cases k <;> rfl

/-- Binary round trip at the stream level: decoding a saved model recovers
it exactly. -/
theorem decModel_save (m : Model) : decModel (saveModel m) = some m := by
  unfold saveModel decModel
  have hlast : decRows (encRows m.geometry.coeffs) = some (m.geometry.coeffs, []) := by
    rw [← List.append_nil (encRows m.geometry.coeffs)]
    exact decRows_enc m.geometry.coeffs []
  simp only [List.append_assoc, decCell_natCast, kindOfTag_tag, decListNat_enc,
    decRows_enc, hlast, Option.bind_eq_bind, Option.some_bind]
  rfl

/-- Binary round trip through validation: loading a saved well-formed model
returns it unchanged. -/
theorem load_save (m : Model) (h : WF m) : loadModel (saveModel m) = .ok m := by
  unfold loadModel
  rw [decModel_save]
  show (if WF m then Except.ok m else Except.error Err.ValidationError) = Except.ok m
  rw [if_pos h]

/-- C4: for every well-formed model, the structured export/import round
trip and the binary save/load round trip both yield a model observationally
equal to the original under get queries for every recognized attribute. -/
theorem c4_roundtrip (m : Model) (h : WF m) :
    (∃ m1, importModelXml (exportModelXml m) = .ok m1 ∧ m1.kind = m.kind ∧
      ∀ attr, getAttribute m1.geometry attr = getAttribute m.geometry attr) ∧
    (∃ m2, loadModel (saveModel m) = .ok m2 ∧ m2.kind = m.kind ∧
      ∀ attr, getAttribute m2.geometry attr = getAttribute m.geometry attr) :=
  ⟨⟨m, import_export m h, rfl, fun _ => rfl⟩,
   ⟨m, load_save m h, rfl, fun _ => rfl⟩⟩

/-- Witness for C4 at the freshly created test surface. -/
theorem c4_witness :
    WF surf32 ∧
    ((∃ m1, importModelXml (exportModelXml surf32) = .ok m1 ∧ m1.kind = surf32.kind ∧
      ∀ attr, getAttribute m1.geometry attr = getAttribute surf32.geometry attr) ∧
     (∃ m2, loadModel (saveModel surf32) = .ok m2 ∧ m2.kind = surf32.kind ∧
      ∀ attr, getAttribute m2.geometry attr = getAttribute surf32.geometry attr)) :=
  ⟨by decide, c4_roundtrip surf32 (by decide)⟩

/-- Witness for C3 at the freshly created test surface and direction 0. -/
theorem c3_witness :
    Reachable surf32 ∧ (0 : ℕ) < surf32.kind.parDim ∧
    (∃ nk nc dg,
      getAttribute surf32.geometry "nknots" = some (.nats nk) ∧
      getAttribute surf32.geometry "ncoeffs" = some (.nats nc) ∧
      getAttribute surf32.geometry "degrees" = some (.nats dg) ∧
      nk.getD 0 0 = nc.getD 0 0 + dg.getD 0 0 + 1) := by
  have hc : createModel ModelKind.BSplineSurface 1 [3, 2] = .ok surf32 := by decide
  exact ⟨.created hc, by decide, c3_nknots_invariant surf32 (.created hc) 0 (by decide)⟩

/-- The recipients of a broadcast are the attendees of the session minus
the issuing connection. -/
theorem map_fst_broadcastTo (s : Server) (sid issuer : ℕ) (msg : String) :
    (broadcastTo s sid issuer msg).map Prod.fst
      = (attendees s sid).filter (fun c => c != issuer) := by
  unfold broadcastTo
  rw [List.map_map]
  exact List.map_id _

/-- When no connection appears twice in the attendance relation, the
attendee list of every session is duplicate-free. -/
theorem attendees_nodup (s : Server) (h : (s.attendance.map Prod.fst).Nodup) (sid : ℕ) :
    (attendees s sid).Nodup :=
  List.Nodup.sublist ((List.filter_sublist _).map Prod.fst) h

/-- C6: if connection A attends session S and a different connection B
issues a successful mutating request on S (creating a model), then A
receives exactly one broadcast notification, B receives none beyond its
direct reply, and a connection C not attending S receives none. -/
theorem c6_broadcast (s : Server) (A B C S : ℕ)
    (hnodup : (s.attendance.map Prod.fst).Nodup)
    (hS : (findSession s S).isSome = true)
    (hA : A ∈ attendees s S) (hAB : A ≠ B) (hC : C ∉ attendees s S) :
    (handle s B (.createModel S .BSplineSurface 1 [3, 2])).1.status = 0 ∧
    ((handle s B (.createModel S .BSplineSurface 1 [3, 2])).2.2.map Prod.fst).count A = 1 ∧
    B ∉ (handle s B (.createModel S .BSplineSurface 1 [3, 2])).2.2.map Prod.fst ∧
    C ∉ (handle s B (.createModel S .BSplineSurface 1 [3, 2])).2.2.map Prod.fst := by
  obtain ⟨sess, hsess⟩ := Option.isSome_iff_exists.mp hS
  have hcm : createModel ModelKind.BSplineSurface 1 [3, 2] = .ok surf32 := by decide
  have hhandle : handle s B (.createModel S .BSplineSurface 1 [3, 2])
      = (okReply (some (.created sess.nextModelId)),
         updateSession s S (fun t =>
           { nextModelId := t.nextModelId + 1
             models := t.models ++ [(t.nextModelId, surf32)] }),
         broadcastTo s S B "create") := by
    simp [handle, hsess, hcm]
  rw [hhandle]
  have hfst : (broadcastTo s S B "create").map Prod.fst
      = (attendees s S).filter (fun c => c != B) := map_fst_broadcastTo s S B "create"
  refine ⟨rfl, ?_, ?_, ?_⟩
  · show ((broadcastTo s S B "create").map Prod.fst).count A = 1
    rw [hfst]
    refine List.count_eq_one_of_mem ((attendees_nodup s hnodup S).filter _) ?_
    exact List.mem_filter.mpr ⟨hA, by simp [hAB]⟩
  · show B ∉ (broadcastTo s S B "create").map Prod.fst
    rw [hfst]
    intro hmem
    simpa using (List.mem_filter.mp hmem).2
  · show C ∉ (broadcastTo s S B "create").map Prod.fst
    rw [hfst]
    intro hmem
    exact hC (List.mem_filter.mp hmem).1

/-- Witness for C6: in `srvTwoConn`, connection 10 attends session 5,
connection 11 does not, and connection 1 issues the model creation. -/
theorem c6_witness :
    ((srvTwoConn.attendance.map Prod.fst).Nodup ∧
     (findSession srvTwoConn 5).isSome = true ∧
     10 ∈ attendees srvTwoConn 5 ∧ (10 : ℕ) ≠ 1 ∧ 11 ∉ attendees srvTwoConn 5) ∧
    ((handle srvTwoConn 1 (.createModel 5 .BSplineSurface 1 [3, 2])).1.status = 0 ∧
     ((handle srvTwoConn 1 (.createModel 5 .BSplineSurface 1 [3, 2])).2.2.map
        Prod.fst).count 10 = 1 ∧
     1 ∉ (handle srvTwoConn 1 (.createModel 5 .BSplineSurface 1 [3, 2])).2.2.map Prod.fst ∧
     11 ∉ (handle srvTwoConn 1 (.createModel 5 .BSplineSurface 1 [3, 2])).2.2.map Prod.fst) :=
  ⟨⟨by decide, by decide, by decide, by decide, by decide⟩,
   c6_broadcast srvTwoConn 10 1 11 5 (by decide) (by decide) (by decide) (by decide)
     (by decide)⟩

/-- Every protocol error carries a nonzero status. -/
theorem Err.status_ne_zero (e : Err) : e.status ≠ 0 := by cases e <;> decide

/-- Every protocol error carries a nonempty reason. -/
theorem Err.reason_ne_empty (e : Err) : e.reason ≠ "" := by cases e <;> decide

/-- A `put coeffs` payload containing an out-of-range index is rejected
with some error. -/
theorem putCoeffs_error_of_index_out (k : ModelKind) (c : BSplineComponent)
    (p : PutPayload) (h : ∃ i ∈ p.indices, c.ncoeffs.prod ≤ i) :
    ∃ e, putCoeffs k c p = .error e := by
  unfold putCoeffs
  split_ifs with h1 h2 h3
  · exact ⟨_, rfl⟩
  · exact ⟨_, rfl⟩
  · exact ⟨_, rfl⟩
  · exact absurd (by simpa [List.any_eq_true] using h) h3

/-- C8: a get naming a nonexistent session id is answered with nonzero
status and a nonempty reason, and a `put coeffs` containing an index
outside `[0, total control points)` fails, leaves the server state
unchanged, broadcasts nothing, and a subsequent get of `coeffs` returns the
pre-put value. -/
theorem c8_error_scenarios (s : Server) (conn sid : ℕ)
    (hno : findSession s sid = none)
    (t : Server) (conn2 sid2 mid : ℕ) (sess : Session) (m : Model)
    (payload : PutPayload)
    (hsess : findSession t sid2 = some sess) (hm : findModel sess mid = some m)
    (hbad : ∃ i ∈ payload.indices, m.geometry.ncoeffs.prod ≤ i) :
    ((handle s conn (.getModels sid)).1.status ≠ 0 ∧
     (handle s conn (.getModels sid)).1.reason ≠ "") ∧
    ((handle t conn2 (.putAttr sid2 mid "geometry" "coeffs" payload)).1.status ≠ 0 ∧
     (handle t conn2 (.putAttr sid2 mid "geometry" "coeffs" payload)).2.1 = t ∧
     (handle t conn2 (.putAttr sid2 mid "geometry" "coeffs" payload)).2.2 = [] ∧
     (handle (handle t conn2 (.putAttr sid2 mid "geometry" "coeffs" payload)).2.1 conn2
        (.getAttr sid2 mid "geometry" "coeffs")).1
       = (handle t conn2 (.getAttr sid2 mid "geometry" "coeffs")).1) := by
  obtain ⟨e, he⟩ := putCoeffs_error_of_index_out m.kind m.geometry payload hbad
  have h1 : handle s conn (.getModels sid) = (errReply .NotFound, s, []) := by
    simp [handle, hno]
  have h2 : handle t conn2 (.putAttr sid2 mid "geometry" "coeffs" payload)
      = (errReply e, t, []) := by
    simp [handle, hsess, hm, he]
  rw [h1, h2]
  exact ⟨⟨Err.status_ne_zero Err.NotFound, Err.reason_ne_empty Err.NotFound⟩,
         Err.status_ne_zero e, rfl, rfl, rfl⟩

/-- Witness for C8: session 9 does not exist on `srvNoAtt`; on `srv32` the
put payload addresses control point 7 of a 6-point surface. -/
theorem c8_witness :
    (findSession srvNoAtt 9 = none ∧
     findSession srv32 1 = some { nextModelId := 1, models := [(0, surf32)] } ∧
     findModel { nextModelId := 1, models := [(0, surf32)] } 0 = some surf32 ∧
     (∃ i ∈ [7], surf32.geometry.ncoeffs.prod ≤ i)) ∧
    (((handle srvNoAtt 2 (.getModels 9)).1.status ≠ 0 ∧
      (handle srvNoAtt 2 (.getModels 9)).1.reason ≠ "") ∧
     ((handle srv32 2 (.putAttr 1 0 "geometry" "coeffs"
          { indices := [7], coeffs := [[0, 0, 0]] })).1.status ≠ 0 ∧
      (handle srv32 2 (.putAttr 1 0 "geometry" "coeffs"
          { indices := [7], coeffs := [[0, 0, 0]] })).2.1 = srv32 ∧
      (handle srv32 2 (.putAttr 1 0 "geometry" "coeffs"
          { indices := [7], coeffs := [[0, 0, 0]] })).2.2 = [] ∧
      (handle (handle srv32 2 (.putAttr 1 0 "geometry" "coeffs"
            { indices := [7], coeffs := [[0, 0, 0]] })).2.1 2
         (.getAttr 1 0 "geometry" "coeffs")).1
        = (handle srv32 2 (.getAttr 1 0 "geometry" "coeffs")).1)) :=
  ⟨⟨by decide, by decide, by decide, by decide⟩,
   c8_error_scenarios srvNoAtt 2 9 (by decide) srv32 2 1 0
     { nextModelId := 1, models := [(0, surf32)] } surf32
     { indices := [7], coeffs := [[0, 0, 0]] } (by decide) (by decide) (by decide)⟩

end

end IgaNet
